import Mathlib

/-!
Shallow embedding of `scripts/app.py` (How-To Teacher service).

The service keeps a process-wide mutable dictionary `sessions` mapping a
session id to its dialogue history (a list of "Q: …" / "A: …" strings).
External providers (DuckDuckGo text search, Wikipedia summaries, the Cohere
chat endpoint) are modelled as explicit parameters: each search provider is
a function from the query to the results it yields before a possible
exception, plus a flag recording whether that exception was raised; the
chat provider is a function from the prompt to a response record whose
optional fields model Python attribute presence (`hasattr`).
-/

/-- Python `str.strip()`: drop leading and trailing whitespace.  Defined
over the character list so that it evaluates inside the kernel. -/
def pyStrip (s : String) : String :=
  String.mk (((s.data.dropWhile Char.isWhitespace).reverse.dropWhile Char.isWhitespace).reverse)

/-- Model of `fastapi.HTTPException(status, detail)`. -/
structure HTTPException where
  status : Nat
  detail : String
deriving DecidableEq, Repr

/-- `WEB_RESULTS = 3` in app.py: max result count requested from both
search providers. -/
def WEB_RESULTS : Nat := 3

/-- One result dict yielded by `ddgs.text`; only the `"body"` key is read,
via `r.get("body","")`, so an absent key is modelled with `Option`. -/
structure DDGResult where
  body : Option String
deriving DecidableEq, Repr

/-- Outcome of iterating `ddgs.text(query, max_results=WEB_RESULTS)`:
the results yielded before the iteration ended, and whether it ended by
raising `DuckDuckGoSearchException` (the only exception `ddg_search`
catches) instead of finishing normally. -/
abbrev DDGOutcome : Type := List DDGResult × Bool

/-- Outcome of the Wikipedia loop in `wiki_search`: the summaries
successfully computed before a possible exception (caught by the
blanket `except Exception`), and whether that exception was raised. -/
abbrev WikiOutcome : Type := List String × Bool

/-- `ddg_search` (app.py lines 45-54): collect the stripped `"body"` of
each yielded result, skipping empty ones; a provider exception is caught
and logged, leaving the results accumulated so far. -/
def ddg_search (outcome : DDGOutcome) : List String :=
  (outcome.1.map (fun r => pyStrip (r.body.getD ""))).filter (fun b => b ≠ "")

/-- `wiki_search` (app.py lines 56-63): append the summary of each found
title; an exception is caught and logged, leaving the summaries
accumulated so far. -/
def wiki_search (outcome : WikiOutcome) : List String :=
  outcome.1

/-- One element of a Cohere `generations` list; only `.text` is read. -/
structure Generation where
  text : String
deriving DecidableEq, Repr

/-- A Cohere chat response; each `Option` field is `some` exactly when the
Python object has that attribute (`hasattr resp "generations"` etc.). -/
structure CohereResp where
  generations : Option (List Generation)
  message : Option String
  text : Option String
deriving DecidableEq, Repr

/-- The final normalisation in `call_cohere` (app.py line 81):
`text.strip() or "(no text returned)"`. -/
def finalizeText (s : String) : String :=
  if pyStrip s = "" then "(no text returned)" else pyStrip s

/-- `call_cohere` response parsing (app.py lines 73-81): check a non-empty
`generations` list, then a `message` attribute, then a `text` attribute;
raise `HTTPException(500, …)` when none is present; finally trim and
substitute the placeholder for an empty result. -/
def call_cohere (resp : CohereResp) : Except HTTPException String :=
  match resp.generations with
  | some (g :: _) => .ok (finalizeText g.text)
  | _ =>
    match resp.message with
    | some m => .ok (finalizeText m)
    | none =>
      match resp.text with
      | some t => .ok (finalizeText t)
      | none => .error ⟨500, "Unexpected Cohere response"⟩

/-- The three external providers, as deterministic oracles indexed by the
query/prompt sent to them. -/
structure Providers where
  ddg : String → DDGOutcome
  wiki : String → WikiOutcome
  chat : String → CohereResp

/-- The fallback expression `ddg_search(question) or wiki_search(question)`
(app.py line 95), instrumented: the second component records whether the
Wikipedia branch was evaluated (Python `or` is short-circuiting). -/
def search_fallbackT (P : Providers) (q : String) : List String × Bool :=
  let d := ddg_search (P.ddg q)
  if d = [] then (wiki_search (P.wiki q), true) else (d, false)

/-- The snippet list actually used by `research_steps`. -/
def search_fallback (P : Providers) (q : String) : List String :=
  (search_fallbackT P q).1

instance {ε α : Type} [DecidableEq ε] [DecidableEq α] : DecidableEq (Except ε α) := fun x y =>
  match x, y with
  | .error e, .error f =>
    if h : e = f then isTrue (by rw [h]) else isFalse (by simp [h])
  | .ok a, .ok b =>
    if h : a = b then isTrue (by rw [h]) else isFalse (by simp [h])
  | .error _, .ok _ => isFalse (by simp)
  | .ok _, .error _ => isFalse (by simp)

/-- The process-wide `sessions` dictionary (app.py line 27), as an
association list with unique keys: session id ↦ dialogue history. -/
abbrev SessionMap : Type := List (String × List String)

/-- Dictionary lookup `sessions[sid]` / `sid in sessions`. -/
def lookupSession : SessionMap → String → Option (List String)
  | [], _ => none
  | (k, v) :: rest, sid => if k = sid then some v else lookupSession rest sid

/-- Dictionary assignment `sessions[sid] = h` (overwrites or inserts). -/
def setSession : SessionMap → String → List String → SessionMap
  | [], sid, h => [(sid, h)]
  | (k, v) :: rest, sid, h =>
    if k = sid then (k, h) :: rest else (k, v) :: setSession rest sid h

/-- `sessions.pop(sid, None)`: remove the entry when present. -/
def eraseSession (st : SessionMap) (sid : String) : SessionMap :=
  st.filter (fun kv => kv.1 ≠ sid)

/-- The numbered-snippet block of the first-question prompt
(app.py lines 98-100). -/
def snippetBlock (snippets : List String) : String :=
  "Reference snippets:\n" ++
    String.intercalate "\n"
      (snippets.enum.map (fun p => toString (p.1 + 1) ++ ". " ++ p.2)) ++
    "\n\n"

/-- The prompt built for a first question (app.py lines 96-106): optional
snippet block, then the fixed teacher instruction mentioning the question. -/
def newLessonPrompt (question : String) (snippets : List String) : String :=
  (if snippets = [] then "" else snippetBlock snippets) ++
  "You are a seasoned teacher explaining step by step how to " ++ question ++ ".\n" ++
  "Begin with a concise introduction and context.\n" ++
  "Then give a clear sequence of numbered steps with simple examples or analogies.\n" ++
  "Finish with a brief summary.\n\nLesson:\n"

/-- The prompt built for a follow-up (app.py lines 112-117): prior history
joined by newlines, then the new question. -/
def followupPrompt (history : List String) (question : String) : String :=
  "We have covered:\n" ++ String.intercalate "\n" history ++
  "\n\nNow the student asks a follow-up: " ++ question ++
  "\nAnswer this clearly as a teacher, building on the previous lesson.\n\nResponse:\n"

/-- The `is_followup = sid in sessions` test (app.py line 89), evaluated
before the falsy-`sid` replacement, exactly as in the source. -/
def isFollowup (sid0 : Option String) (st : SessionMap) : Bool :=
  match sid0 with
  | some s => (lookupSession st s).isSome
  | none => false

/-- The local `sid` after the `if not sid` replacement (app.py lines 90-91):
a falsy request id (`None` or `""`) is replaced by the fresh uuid. -/
def effectiveSid (sid0 : Option String) (freshId : String) : String :=
  match sid0 with
  | none => freshId
  | some s => if s = "" then freshId else s

/-- `research_steps(question, sid)` (app.py lines 84-125).  `sid0` is the
request session id (`None` modelled as `none`); `freshId` is the value
`uuid.uuid4().hex` would produce on this call.  Returns the handler result
(`(lesson, sid)` or the raised `HTTPException`) together with the updated
session map.  The impossible case where the follow-up branch is reached
with a key that is no longer the lookup key (reachable only if `""` were
ever a key) models the uncaught Python `KeyError`, which FastAPI surfaces
as a 500. -/
def research_steps (P : Providers) (question : String) (sid0 : Option String)
    (freshId : String) (st : SessionMap) :
    Except HTTPException (String × String) × SessionMap :=
  if isFollowup sid0 st then
    match lookupSession st (effectiveSid sid0 freshId) with
    | none => (.error ⟨500, "KeyError"⟩, st)
    | some hist =>
      match call_cohere (P.chat (followupPrompt hist question)) with
      | .error e => (.error e, st)
      | .ok lesson =>
        (.ok (lesson, effectiveSid sid0 freshId),
         setSession st (effectiveSid sid0 freshId)
           (hist ++ ["Q: " ++ question, "A: " ++ lesson]))
  else
    match call_cohere (P.chat (newLessonPrompt question (search_fallback P question))) with
    | .error e => (.error e, st)
    | .ok lesson =>
      (.ok (lesson, effectiveSid sid0 freshId),
       setSession st (effectiveSid sid0 freshId) ["Q: " ++ question, "A: " ++ lesson])

/-- Body of `POST /process` (pydantic `ResearchRequest`): required `text`,
optional `session_id` (default `None`). -/
structure ResearchRequest where
  text : String
  session_id : Option String
deriving DecidableEq, Repr

/-- Success body returned by `POST /process`. -/
structure ProcessResponse where
  result : String
  session_id : String
deriving DecidableEq, Repr

/-- The `POST /process` handler (app.py lines 176-181): reject an
empty-after-strip question with a 400, otherwise run `research_steps` on
the stripped text. -/
def process (P : Providers) (freshId : String) (req : ResearchRequest)
    (st : SessionMap) : Except HTTPException ProcessResponse × SessionMap :=
  if pyStrip req.text = "" then (.error ⟨400, "Empty question"⟩, st)
  else
    match research_steps P (pyStrip req.text) req.session_id freshId st with
    | (.error e, st') => (.error e, st')
    | (.ok (lesson, sid), st') => (.ok ⟨lesson, sid⟩, st')

/-- Body returned by `POST /reset`. -/
structure ResetResponse where
  reset : Bool
deriving DecidableEq, Repr

/-- The `POST /reset` handler (app.py lines 183-186):
`sessions.pop(session_id, None); return {"reset": True}`. -/
def resetHandler (sid : String) (st : SessionMap) : ResetResponse × SessionMap :=
  (⟨true⟩, eraseSession st sid)

/-- The `POST /reset` route including FastAPI request validation of the
pydantic `ResetRequest` schema (app.py lines 41-42): `session_id` is a
required field (`Field(...)`), so a body without it is rejected by the
framework with a 422 validation error before the handler runs; with it,
the handler always succeeds. -/
def resetEndpoint (sid0 : Option String) (st : SessionMap) :
    Except HTTPException ResetResponse × SessionMap :=
  match sid0 with
  | none => (.error ⟨422, "Field required"⟩, st)
  | some sid =>
    match resetHandler sid st with
    | (r, st') => (.ok r, st')

/-- The routes registered on the FastAPI app, as (method, path) pairs
(app.py lines 130, 176, 183, 188). -/
def appRoutes : List (String × String) :=
  [("GET", "/"), ("POST", "/process"), ("POST", "/reset"), ("GET", "/logs")]

/-- The `GET /logs` handler (app.py lines 188-192): 404 when the log file
is absent, otherwise a `FileResponse` with the content, media type
`text/plain` and the log filename.  The file system is modelled by the
optional current content of `research.log`. -/
def download_logs (logFile : Option String) :
    Except HTTPException (String × String × String) :=
  match logFile with
  | none => .error ⟨404, "No logs"⟩
  | some content => .ok (content, "text/plain", "research.log")

/-- One client operation against the service, for multi-request runs:
a `POST /process` call (with the fresh uuid its handler would draw) or a
`POST /reset` call. -/
inductive Op where
  | proc (req : ResearchRequest) (freshId : String)
  | rst (sid : String)
deriving DecidableEq, Repr

/-- The session map after serving one operation. -/
def applyOp (P : Providers) (st : SessionMap) (op : Op) : SessionMap :=
  match op with
  | .proc req fid => (process P fid req st).2
  | .rst sid => (resetEndpoint (some sid) st).2

/-- Dialogue histories as the handler stores them: pairs of a "Q: "-tagged
entry followed by an "A: "-tagged entry. -/
def goodHistory : List String → Prop
  | [] => True
  | x :: y :: rest => (∃ q, x = "Q: " ++ q) ∧ (∃ a, y = "A: " ++ a) ∧ goodHistory rest
  | [_] => False

/-- Every stored history is well-formed. -/
def WFmap (st : SessionMap) : Prop := ∀ p ∈ st, goodHistory p.2

/-- A concrete provider assignment used to exercise the definitions:
the web search yields one usable snippet and the chat endpoint answers
through the `message` attribute. -/
def sampleProviders : Providers where
  ddg := fun _ => ([⟨some " hello "⟩], false)
  wiki := fun _ => (["wiki summary"], false)
  chat := fun _ => ⟨none, some " lesson text ", none⟩

/-- The HTTP status of a handler outcome (200 on success). -/
def respStatus {α : Type} (r : Except HTTPException α) : Nat :=
  match r with
  | .error e => e.status
  | .ok _ => 200

theorem lookup_setSession_self (st : SessionMap) (k : String) (v : List String) :
    lookupSession (setSession st k v) k = some v := by
  induction st with
  | nil => simp [setSession, lookupSession]
  | cons p rest ih =>
    obtain ⟨k0, v0⟩ := p
    by_cases hp : k0 = k
    · simp [setSession, lookupSession, hp]
    · simp [setSession, lookupSession, hp, ih]

theorem lookup_setSession_ne (st : SessionMap) (k k' : String) (v : List String)
    (h : k ≠ k') : lookupSession (setSession st k v) k' = lookupSession st k' := by
  induction st with
  | nil => simp [setSession, lookupSession, h]
  | cons p rest ih =>
    obtain ⟨k0, v0⟩ := p
    by_cases hp : k0 = k
    · subst hp
      simp [setSession, lookupSession, h]
    · simp [setSession, lookupSession, hp, ih]

theorem lookup_erase_self (st : SessionMap) (k : String) :
    lookupSession (eraseSession st k) k = none := by
  induction st with
  | nil => rfl
  | cons p rest ih =>
    obtain ⟨k0, v0⟩ := p
    by_cases hp : k0 = k
    · simpa [eraseSession, List.filter_cons, hp] using ih
    · simpa [eraseSession, List.filter_cons, hp, lookupSession] using ih

theorem lookup_erase_ne (st : SessionMap) (k k' : String) (h : k ≠ k') :
    lookupSession (eraseSession st k) k' = lookupSession st k' := by
  induction st with
  | nil => rfl
  | cons p rest ih =>
    obtain ⟨k0, v0⟩ := p
    by_cases hp : k0 = k
    · subst hp
      have hkk' : k0 ≠ k' := h
      simp [eraseSession, List.filter_cons, lookupSession, hkk'] at *
      exact ih
    · by_cases hq : k0 = k'
      · have h' : k' ≠ k := fun hh => h hh.symm
        simp [eraseSession, List.filter_cons, lookupSession, hp, hq, h']
      · simp [eraseSession, List.filter_cons, lookupSession, hp, hq] at *
        exact ih

theorem erase_erase (st : SessionMap) (k : String) :
    eraseSession (eraseSession st k) k = eraseSession st k := by
  simp [eraseSession, List.filter_filter]

theorem finalizeText_ne_empty (s : String) : finalizeText s ≠ "" := by
  unfold finalizeText
  split
  · decide
  · assumption

theorem call_cohere_ok_ne_empty (resp : CohereResp) (s : String)
    (h : call_cohere resp = .ok s) : s ≠ "" := by
  unfold call_cohere at h
  split at h
  · exact (Except.ok.injEq _ _).mp h ▸ finalizeText_ne_empty _
  · split at h
    · exact (Except.ok.injEq _ _).mp h ▸ finalizeText_ne_empty _
    · split at h
      · exact (Except.ok.injEq _ _).mp h ▸ finalizeText_ne_empty _
      · exact absurd h (by simp)

theorem research_steps_none_ok (P : Providers) (q fid : String) (st : SessionMap)
    (L : String)
    (hchat : call_cohere (P.chat (newLessonPrompt q (search_fallback P q))) = .ok L) :
    research_steps P q none fid st =
      (.ok (L, fid), setSession st fid ["Q: " ++ q, "A: " ++ L]) := by
  simp [research_steps, isFollowup, effectiveSid, hchat]

theorem research_steps_new_ok (P : Providers) (q s fid : String) (st : SessionMap)
    (L : String) (hnone : lookupSession st s = none) (hs : s ≠ "")
    (hchat : call_cohere (P.chat (newLessonPrompt q (search_fallback P q))) = .ok L) :
    research_steps P q (some s) fid st =
      (.ok (L, s), setSession st s ["Q: " ++ q, "A: " ++ L]) := by
  simp [research_steps, isFollowup, effectiveSid, hnone, hs, hchat]

theorem research_steps_followup_ok (P : Providers) (q s fid : String)
    (st : SessionMap) (hist : List String) (L : String)
    (hsome : lookupSession st s = some hist) (hs : s ≠ "")
    (hchat : call_cohere (P.chat (followupPrompt hist q)) = .ok L) :
    research_steps P q (some s) fid st =
      (.ok (L, s), setSession st s (hist ++ ["Q: " ++ q, "A: " ++ L])) := by
  simp [research_steps, isFollowup, effectiveSid, hsome, hs, hchat]

theorem research_steps_state (P : Providers) (q : String) (sid0 : Option String)
    (fid : String) (st : SessionMap) :
    (research_steps P q sid0 fid st).2 = st ∨
    ∃ s h, (research_steps P q sid0 fid st).2 = setSession st s h := by
  unfold research_steps
  split
  · split
    · left; rfl
    · split
      · left; rfl
      · right; exact ⟨_, _, rfl⟩
  · split
    · left; rfl
    · right; exact ⟨_, _, rfl⟩

theorem research_steps_ok_inv (P : Providers) (q : String) (sid0 : Option String)
    (fid : String) (st : SessionMap) (L s : String) (st' : SessionMap)
    (h : research_steps P q sid0 fid st = (.ok (L, s), st')) :
    (∃ hist, lookupSession st s = some hist ∧
       call_cohere (P.chat (followupPrompt hist q)) = .ok L ∧
       st' = setSession st s (hist ++ ["Q: " ++ q, "A: " ++ L])) ∨
    ((lookupSession st s = none ∨ s = fid) ∧
       call_cohere (P.chat (newLessonPrompt q (search_fallback P q))) = .ok L ∧
       st' = setSession st s ["Q: " ++ q, "A: " ++ L]) := by
  unfold research_steps at h
  split at h
  case isTrue hf =>
    cases hlook : lookupSession st (effectiveSid sid0 fid) with
    | none => rw [hlook] at h; simp at h
    | some hist =>
      rw [hlook] at h
      dsimp only at h
      cases hchat : call_cohere (P.chat (followupPrompt hist q)) with
      | error e => rw [hchat] at h; simp at h
      | ok lesson =>
        rw [hchat] at h
        simp only [Prod.mk.injEq, Except.ok.injEq] at h
        obtain ⟨⟨hL, hsid⟩, hst⟩ := h
        subst hL
        subst hsid
        exact Or.inl ⟨hist, hlook, hchat, hst.symm⟩
  case isFalse hf =>
    cases hchat : call_cohere (P.chat (newLessonPrompt q (search_fallback P q))) with
    | error e => rw [hchat] at h; simp at h
    | ok lesson =>
      rw [hchat] at h
      simp only [Prod.mk.injEq, Except.ok.injEq] at h
      obtain ⟨⟨hL, hsid⟩, hst⟩ := h
      subst hL
      subst hsid
      refine Or.inr ⟨?_, rfl, hst.symm⟩
      cases sid0 with
      | none => right; simp [effectiveSid]
      | some s0 =>
        by_cases hs0 : s0 = ""
        · right; simp [effectiveSid, hs0]
        · left
          have heff : effectiveSid (some s0) fid = s0 := by simp [effectiveSid, hs0]
          rw [heff]
          rcases hq : lookupSession st s0 with _ | v
          · rfl
          · exact absurd (by simp [isFollowup, hq]) hf

theorem process_ok_inv (P : Providers) (fid : String) (req : ResearchRequest)
    (st : SessionMap) (r : ProcessResponse) (st' : SessionMap)
    (h : process P fid req st = (.ok r, st')) :
    pyStrip req.text ≠ "" ∧
    research_steps P (pyStrip req.text) req.session_id fid st =
      (.ok (r.result, r.session_id), st') := by
  unfold process at h
  split at h
  · simp at h
  case isFalse hq =>
    rcases hr : research_steps P (pyStrip req.text) req.session_id fid st with ⟨res, st2⟩
    rw [hr] at h
    cases res with
    | error e => dsimp only at h; simp at h
    | ok p =>
      obtain ⟨l, sd⟩ := p
      dsimp only at h
      simp only [Prod.mk.injEq, Except.ok.injEq] at h
      obtain ⟨hres, hst⟩ := h
      subst hst
      subst hres
      exact ⟨hq, rfl⟩

theorem process_state (P : Providers) (fid : String) (req : ResearchRequest)
    (st : SessionMap) :
    (process P fid req st).2 = st ∨
    ∃ s h, (process P fid req st).2 = setSession st s h := by
  have hrs := research_steps_state P (pyStrip req.text) req.session_id fid st
  unfold process
  split
  · left; rfl
  · rcases hr : research_steps P (pyStrip req.text) req.session_id fid st with ⟨res, st2⟩
    rw [hr] at hrs
    dsimp only at hrs
    cases res with
    | error e => dsimp only; exact hrs
    | ok p =>
      obtain ⟨l, sd⟩ := p
      dsimp only
      exact hrs

theorem research_steps_error_state (P : Providers) (q : String)
    (sid0 : Option String) (fid : String) (st : SessionMap)
    (e : HTTPException) (st' : SessionMap)
    (h : research_steps P q sid0 fid st = (.error e, st')) : st' = st := by
  unfold research_steps at h
  split at h
  · cases hlook : lookupSession st (effectiveSid sid0 fid) with
    | none =>
      rw [hlook] at h
      dsimp only at h
      simp only [Prod.mk.injEq] at h
      exact h.2.symm
    | some hist =>
      rw [hlook] at h
      dsimp only at h
      cases hchat : call_cohere (P.chat (followupPrompt hist q)) with
      | error e2 =>
        rw [hchat] at h
        simp only [Prod.mk.injEq] at h
        exact h.2.symm
      | ok lesson =>
        rw [hchat] at h
        simp at h
  · cases hchat : call_cohere (P.chat (newLessonPrompt q (search_fallback P q))) with
    | error e2 =>
      rw [hchat] at h
      simp only [Prod.mk.injEq] at h
      exact h.2.symm
    | ok lesson =>
      rw [hchat] at h
      simp at h

theorem process_error_state (P : Providers) (fid : String) (req : ResearchRequest)
    (st : SessionMap) (e : HTTPException) (st' : SessionMap)
    (h : process P fid req st = (.error e, st')) : st' = st := by
  unfold process at h
  split at h
  · simp only [Prod.mk.injEq] at h
    exact h.2.symm
  · rcases hr : research_steps P (pyStrip req.text) req.session_id fid st with ⟨res, st2⟩
    rw [hr] at h
    cases res with
    | error e2 =>
      dsimp only at h
      simp only [Prod.mk.injEq] at h
      obtain ⟨_, hst⟩ := h
      subst hst
      exact research_steps_error_state P _ _ fid st e2 _ hr
    | ok p =>
      obtain ⟨l, sd⟩ := p
      dsimp only at h
      simp at h

theorem goodHistory_even : ∀ h : List String, goodHistory h → h.length % 2 = 0
  | [], _ => rfl
  | [_], hg => absurd hg (by simp [goodHistory])
  | _ :: _ :: rest, hg => by
    have hrec := goodHistory_even rest hg.2.2
    simp only [List.length_cons]
    omega

theorem goodHistory_pair (q a : String) : goodHistory ["Q: " ++ q, "A: " ++ a] :=
  ⟨⟨q, rfl⟩, ⟨a, rfl⟩, trivial⟩

theorem goodHistory_append : ∀ (h : List String) (q a : String), goodHistory h →
    goodHistory (h ++ ["Q: " ++ q, "A: " ++ a])
  | [], q, a, _ => goodHistory_pair q a
  | [_], _, _, hg => absurd hg (by simp [goodHistory])
  | x :: y :: rest, q, a, hg =>
    ⟨hg.1, hg.2.1, goodHistory_append rest q a hg.2.2⟩

theorem WFmap_nil : WFmap [] := by
  intro p hp
  simp at hp

theorem WFmap_erase (st : SessionMap) (k : String) (hw : WFmap st) :
    WFmap (eraseSession st k) :=
  fun p hp => hw p (List.mem_of_mem_filter hp)

theorem WFmap_setSession (st : SessionMap) (k : String) (v : List String)
    (hw : WFmap st) (hv : goodHistory v) : WFmap (setSession st k v) := by
  induction st with
  | nil =>
    intro p hp
    simp [setSession] at hp
    rw [hp]
    exact hv
  | cons p0 rest ih =>
    obtain ⟨k0, v0⟩ := p0
    intro p hp
    by_cases hk : k0 = k
    · simp only [setSession, hk, if_pos] at hp
      rcases List.mem_cons.mp hp with hp | hp
      · rw [hp]; exact hv
      · exact hw p (List.mem_cons_of_mem _ hp)
    · simp only [setSession, hk, if_neg, not_false_iff] at hp
      rcases List.mem_cons.mp hp with hp | hp
      · rw [hp]; exact hw (k0, v0) (by simp)
      · exact ih (fun p2 hp2 => hw p2 (List.mem_cons_of_mem _ hp2)) p hp

theorem WFmap_lookup (st : SessionMap) (s : String) (hist : List String)
    (hw : WFmap st) (hl : lookupSession st s = some hist) : goodHistory hist := by
  induction st with
  | nil => simp [lookupSession] at hl
  | cons p rest ih =>
    obtain ⟨k0, v0⟩ := p
    by_cases hk : k0 = s
    · simp only [lookupSession, hk, if_pos, Option.some.injEq] at hl
      rw [← hl]
      exact hw (k0, v0) (by simp)
    · simp only [lookupSession, hk, if_neg, not_false_iff] at hl
      exact ih (fun p2 hp2 => hw p2 (List.mem_cons_of_mem _ hp2)) hl

theorem WFmap_process (P : Providers) (fid : String) (req : ResearchRequest)
    (st : SessionMap) (hw : WFmap st) : WFmap (process P fid req st).2 := by
  rcases hp : process P fid req st with ⟨res, st'⟩
  cases res with
  | error e =>
    have hst := process_error_state P fid req st e st' hp
    rw [hst]
    exact hw
  | ok r =>
    obtain ⟨hq, hr⟩ := process_ok_inv P fid req st r st' hp
    rcases research_steps_ok_inv P _ _ fid st _ _ _ hr with
      ⟨hist, hlook, _, hset⟩ | ⟨_, _, hset⟩
    · rw [hset]
      exact WFmap_setSession st _ _ hw
        (goodHistory_append hist _ _ (WFmap_lookup st _ hist hw hlook))
    · rw [hset]
      exact WFmap_setSession st _ _ hw (goodHistory_pair _ _)

theorem WFmap_applyOp (P : Providers) (st : SessionMap) (op : Op)
    (hw : WFmap st) : WFmap (applyOp P st op) := by
  cases op with
  | proc req fid => exact WFmap_process P fid req st hw
  | rst sid =>
    show WFmap (resetEndpoint (some sid) st).2
    exact WFmap_erase st sid hw

theorem WFmap_foldl (P : Providers) (ops : List Op) :
    ∀ st : SessionMap, WFmap st → WFmap (ops.foldl (applyOp P) st) := by
  induction ops with
  | nil => intro st hw; exact hw
  | cons op rest ih => intro st hw; exact ih _ (WFmap_applyOp P st op hw)

theorem lookup_isSome_setSession (st : SessionMap) (k s : String) (v : List String)
    (h : (lookupSession st k).isSome = true) :
    (lookupSession (setSession st s v) k).isSome = true := by
  by_cases hks : s = k
  · rw [hks, lookup_setSession_self]
    rfl
  · rw [lookup_setSession_ne st s k v hks]
    exact h

theorem mem_after_process (P : Providers) (fid k : String) (req : ResearchRequest)
    (st : SessionMap) (h : (lookupSession st k).isSome = true) :
    (lookupSession (process P fid req st).2 k).isSome = true := by
  rcases process_state P fid req st with hst | ⟨s, v, hst⟩
  · rw [hst]; exact h
  · rw [hst]; exact lookup_isSome_setSession st k s v h

theorem mem_after_applyOp (P : Providers) (k : String) (st : SessionMap) (op : Op)
    (hm : (lookupSession st k).isSome = true) (hop : op ≠ Op.rst k) :
    (lookupSession (applyOp P st op) k).isSome = true := by
  cases op with
  | proc req fid => exact mem_after_process P fid k req st hm
  | rst sid =>
    have hsd : sid ≠ k := fun hh => hop (by rw [hh])
    show (lookupSession (resetEndpoint (some sid) st).2 k).isSome = true
    have : (resetEndpoint (some sid) st).2 = eraseSession st sid := rfl
    rw [this, lookup_erase_ne st sid k hsd]
    exact hm

theorem mem_after_foldl (P : Providers) (k : String) (ops : List Op) :
    ∀ st : SessionMap, (lookupSession st k).isSome = true →
    (∀ op ∈ ops, op ≠ Op.rst k) →
    (lookupSession (ops.foldl (applyOp P) st) k).isSome = true := by
  induction ops with
  | nil => intro st hm _; exact hm
  | cons op rest ih =>
    intro st hm hops
    exact ih _ (mem_after_applyOp P k st op hm (hops op (by simp)))
      (fun op2 hop2 => hops op2 (List.mem_cons_of_mem _ hop2))

theorem process_ok_key (P : Providers) (fid : String) (req : ResearchRequest)
    (st : SessionMap) (r : ProcessResponse) (st' : SessionMap)
    (h : process P fid req st = (.ok r, st')) :
    (lookupSession st' r.session_id).isSome = true := by
  obtain ⟨_, hr⟩ := process_ok_inv P fid req st r st' h
  rcases research_steps_ok_inv P _ _ fid st _ _ _ hr with
    ⟨hist, _, _, hset⟩ | ⟨_, _, hset⟩ <;>
    rw [hset, lookup_setSession_self] <;> rfl

/-- Claim C1: for every query, the Wikipedia provider is queried iff the
DuckDuckGo search yields an empty snippet sequence; the returned sequence
is the first non-empty one (capped at WEB_RESULTS = 3 snippets, given that
each provider honours the requested result cap), or empty if both come
back empty; and a provider exception changes nothing observable (it is
swallowed): both search functions ignore the exception flag, and the whole
HTTP handler result is unchanged by exception flags, so a search failure
is never surfaced to the HTTP caller. -/
theorem claim1_search_fallback (P : Providers) (q : String)
    (hd : (P.ddg q).1.length ≤ WEB_RESULTS)
    (hw : (P.wiki q).1.length ≤ WEB_RESULTS) :
    ((search_fallbackT P q).2 = true ↔ ddg_search (P.ddg q) = []) ∧
    (ddg_search (P.ddg q) ≠ [] → search_fallback P q = ddg_search (P.ddg q)) ∧
    (ddg_search (P.ddg q) = [] → search_fallback P q = wiki_search (P.wiki q)) ∧
    (search_fallback P q).length ≤ WEB_RESULTS ∧
    (∀ (ys : List DDGResult) (b b' : Bool), ddg_search (ys, b) = ddg_search (ys, b')) ∧
    (∀ (ss : List String) (b b' : Bool), wiki_search (ss, b) = wiki_search (ss, b')) ∧
    (∀ P' : Providers, (∀ r, (P'.ddg r).1 = (P.ddg r).1) →
      (∀ r, (P'.wiki r).1 = (P.wiki r).1) → P'.chat = P.chat →
      ∀ (fid : String) (req : ResearchRequest) (st : SessionMap),
        process P' fid req st = process P fid req st) := by
  have hdlen : (ddg_search (P.ddg q)).length ≤ WEB_RESULTS := by
    calc (ddg_search (P.ddg q)).length
        ≤ ((P.ddg q).1.map (fun r => pyStrip (r.body.getD ""))).length :=
          List.length_filter_le _ _
      _ = (P.ddg q).1.length := List.length_map _ _
      _ ≤ WEB_RESULTS := hd
  refine ⟨?_, ?_, ?_, ?_, fun ys b b' => rfl, fun ss b b' => rfl, ?_⟩
  · unfold search_fallbackT
    by_cases h : ddg_search (P.ddg q) = [] <;> simp [h]
  · intro h
    unfold search_fallback search_fallbackT
    simp [h]
  · intro h
    unfold search_fallback search_fallbackT
    simp [h]
  · unfold search_fallback search_fallbackT
    by_cases h : ddg_search (P.ddg q) = []
    · simp only [h, if_pos]
      simpa [wiki_search] using hw
    · simp only [h, if_neg, not_false_iff]
      exact hdlen
  · intro P' h1 h2 hchat
    have hdd : ∀ r, ddg_search (P'.ddg r) = ddg_search (P.ddg r) := fun r => by
      simp only [ddg_search, h1 r]
    have hww : ∀ r, wiki_search (P'.wiki r) = wiki_search (P.wiki r) := fun r => by
      simp only [wiki_search, h2 r]
    have hsf : ∀ r, search_fallback P' r = search_fallback P r := fun r => by
      simp only [search_fallback, search_fallbackT, hdd r, hww r]
    have hrs : ∀ (q2 : String) (sid0 : Option String) (fid : String) (st : SessionMap),
        research_steps P' q2 sid0 fid st = research_steps P q2 sid0 fid st := by
      intro q2 sid0 fid st
      unfold research_steps
      rw [hchat, hsf q2]
    intro fid req st
    unfold process
    rw [hrs]

/-- Claim C1 witness: at the sample providers the web search yields a
snippet, so the fallback returns exactly the web result. -/
theorem claim1_search_fallback_witness :
    search_fallback sampleProviders "q" = ddg_search (sampleProviders.ddg "q") :=
  (claim1_search_fallback sampleProviders "q" (by decide) (by decide)).2.1 (by decide)

/-- Claim C2: the chat client checks exactly three response shapes in
order (a non-empty generations list, a message attribute, a text
attribute), extracts the text of the first shape present, raises an HTTP
500 when none is present, and trims the extracted text, substituting
"(no text returned)" when the trimmed text is empty. -/
theorem claim2_call_cohere (resp : CohereResp) :
    (∀ g gs, resp.generations = some (g :: gs) →
       call_cohere resp = .ok (finalizeText g.text)) ∧
    (∀ m, (resp.generations = none ∨ resp.generations = some []) →
       resp.message = some m → call_cohere resp = .ok (finalizeText m)) ∧
    (∀ t, (resp.generations = none ∨ resp.generations = some []) →
       resp.message = none → resp.text = some t →
       call_cohere resp = .ok (finalizeText t)) ∧
    ((resp.generations = none ∨ resp.generations = some []) →
       resp.message = none → resp.text = none →
       call_cohere resp = .error ⟨500, "Unexpected Cohere response"⟩) ∧
    (∀ s, finalizeText s =
       if pyStrip s = "" then "(no text returned)" else pyStrip s) := by
  refine ⟨?_, ?_, ?_, ?_, fun s => rfl⟩
  · intro g gs hg
    simp [call_cohere, hg]
  · intro m hgen hm
    rcases hgen with hg | hg <;> simp [call_cohere, hg, hm]
  · intro t hgen hm ht
    rcases hgen with hg | hg <;> simp [call_cohere, hg, hm, ht]
  · intro hgen hm ht
    rcases hgen with hg | hg <;> simp [call_cohere, hg, hm, ht]

/-- Claim C2 witness: a response carrying all three shapes is parsed from
its non-empty generations list. -/
theorem claim2_call_cohere_witness :
    call_cohere ⟨some [⟨" first gen "⟩], some "msg", some "txt"⟩ =
      .ok (finalizeText " first gen ") :=
  (claim2_call_cohere ⟨some [⟨" first gen "⟩], some "msg", some "txt"⟩).1
    ⟨" first gen "⟩ [] rfl

/-- Claim C3: a session id returned by a successful POST /process is a key
of the session map immediately afterwards, and stays a key across any
further sequence of requests that contains no reset of that id. -/
theorem claim3_session_persists (P : Providers) (fid : String)
    (req : ResearchRequest) (st : SessionMap) (r : ProcessResponse)
    (st' : SessionMap) (h : process P fid req st = (.ok r, st'))
    (ops : List Op) (hops : ∀ op ∈ ops, op ≠ Op.rst r.session_id) :
    (lookupSession st' r.session_id).isSome = true ∧
    (lookupSession (ops.foldl (applyOp P) st') r.session_id).isSome = true := by
  have hk := process_ok_key P fid req st r st' h
  exact ⟨hk, mem_after_foldl P r.session_id ops st' hk hops⟩

/-- Claim C3 witness: one processed request, followed by a reset of a
different id and another process call; the returned id stays a key. -/
theorem claim3_session_persists_witness :
    (lookupSession [("f", ["Q: q", "A: lesson text"])] "f").isSome = true ∧
    (lookupSession ([Op.rst "zz", Op.proc ⟨"x", none⟩ "g"].foldl
        (applyOp sampleProviders) [("f", ["Q: q", "A: lesson text"])]) "f").isSome
      = true :=
  claim3_session_persists sampleProviders "f" ⟨" q ", none⟩ []
    ⟨"lesson text", "f"⟩ [("f", ["Q: q", "A: lesson text"])] (by decide)
    [Op.rst "zz", Op.proc ⟨"x", none⟩ "g"] (by decide)

/-- Claim C4: POST /process without a session id, on a question that is
non-empty after stripping, succeeds (when the chat call parses) with a
non-empty result and the freshly drawn uuid as session id; under the
uuid-freshness assumption (the drawn id is not a current key and was not
returned before, modelled by the hypotheses on `fid` and the ledger `R`),
the returned id is fresh. -/
theorem claim4_new_session (P : Providers) (fid : String) (st : SessionMap)
    (q L : String) (R : List String)
    (hq : pyStrip q ≠ "")
    (hfresh : lookupSession st fid = none)
    (hR : fid ∉ R)
    (hchat : call_cohere (P.chat (newLessonPrompt (pyStrip q)
      (search_fallback P (pyStrip q)))) = .ok L) :
    (process P fid ⟨q, none⟩ st).1 = .ok ⟨L, fid⟩ ∧
    L ≠ "" ∧
    lookupSession st fid = none ∧ fid ∉ R := by
  refine ⟨?_, call_cohere_ok_ne_empty _ L hchat, hfresh, hR⟩
  unfold process
  rw [if_neg hq]
  dsimp only
  rw [research_steps_none_ok P (pyStrip q) fid st L hchat]

/-- Claim C4 witness. -/
theorem claim4_new_session_witness :
    (process sampleProviders "f" ⟨" bake bread ", none⟩ []).1 =
      .ok ⟨"lesson text", "f"⟩ ∧
    "lesson text" ≠ "" ∧
    lookupSession ([] : SessionMap) "f" = none ∧ "f" ∉ ["olderId"] :=
  claim4_new_session sampleProviders "f" [] " bake bread " "lesson text"
    ["olderId"] (by decide) (by decide) (by decide) (by decide)

/-- Claim C5 counterexample: a POST /reset body without a session id is
rejected by request validation with HTTP 422, not with HTTP 400 as the
claim states (`session_id` is a required pydantic field, and FastAPI
answers a failed body validation with 422 Unprocessable Entity). -/
theorem claim5_reset_missing_id_counterexample :
    respStatus (resetEndpoint none []).1 = 422 ∧
    respStatus (resetEndpoint none []).1 ≠ 400 := by
  exact ⟨rfl, by decide⟩

/-- Claim C5 (amended): POST /process with an empty-after-stripping
question returns an HTTP 400 with a short message; POST /reset with a
missing session id is rejected by request validation with HTTP 422. -/
theorem claim5_invalid_input (P : Providers) (fid q : String)
    (sid0 : Option String) (st : SessionMap) (hq : pyStrip q = "") :
    (process P fid ⟨q, sid0⟩ st).1 = .error ⟨400, "Empty question"⟩ ∧
    (resetEndpoint none st).1 = .error ⟨422, "Field required"⟩ := by
  constructor
  · unfold process
    rw [if_pos hq]
  · rfl

/-- Claim C5 witness: a whitespace-only question. -/
theorem claim5_invalid_input_witness :
    (process sampleProviders "f" ⟨"   ", none⟩ []).1 =
      .error ⟨400, "Empty question"⟩ ∧
    (resetEndpoint none ([] : SessionMap)).1 = .error ⟨422, "Field required"⟩ :=
  claim5_invalid_input sampleProviders "f" "   " none [] (by decide)

/-- Claim C6: POST /reset always answers `{reset: true}`, removes the
entry when present, raises nothing when absent, and is idempotent. -/
theorem claim6_reset (st : SessionMap) (sid : String) :
    (resetEndpoint (some sid) st).1 = .ok ⟨true⟩ ∧
    (resetEndpoint (some sid) st).2 = eraseSession st sid ∧
    lookupSession (resetEndpoint (some sid) st).2 sid = none ∧
    resetEndpoint (some sid) ((resetEndpoint (some sid) st).2) =
      resetEndpoint (some sid) st := by
  refine ⟨rfl, rfl, lookup_erase_self st sid, ?_⟩
  show (Except.ok ⟨true⟩, eraseSession (eraseSession st sid) sid) =
    ((Except.ok ⟨true⟩ : Except HTTPException ResetResponse), eraseSession st sid)
  rw [erase_erase]

theorem research_steps_new_eq (P : Providers) (q s fid : String) (st : SessionMap)
    (hnone : lookupSession st s = none) (hs : s ≠ "") :
    research_steps P q (some s) fid st =
      match call_cohere (P.chat (newLessonPrompt q (search_fallback P q))) with
      | .error e => (.error e, st)
      | .ok lesson => (.ok (lesson, s), setSession st s ["Q: " ++ q, "A: " ++ lesson]) := by
  unfold research_steps
  have hif : isFollowup (some s) st = false := by simp [isFollowup, hnone]
  rw [hif]
  simp only [Bool.false_eq_true, if_false, effectiveSid, hs, if_neg]

/-- Claim C7: resetting a session id and then processing with that id
behaves exactly like a brand-new session: the response equals the one
computed from the empty session map, and (for a non-empty question) it is
the chat answer to the new-lesson prompt built from the search fallback,
with no prior-turn context. -/
theorem claim7_reset_then_process (P : Providers) (fid : String)
    (st : SessionMap) (q sid : String) (hsid : sid ≠ "") :
    (process P fid ⟨q, some sid⟩ (resetEndpoint (some sid) st).2).1 =
      (process P fid ⟨q, some sid⟩ []).1 ∧
    (pyStrip q ≠ "" →
      (process P fid ⟨q, some sid⟩ (resetEndpoint (some sid) st).2).1 =
        Except.map (fun lesson => ProcessResponse.mk lesson sid)
          (call_cohere (P.chat (newLessonPrompt (pyStrip q)
            (search_fallback P (pyStrip q)))))) := by
  have h1 : lookupSession (resetEndpoint (some sid) st).2 sid = none :=
    lookup_erase_self st sid
  have h2 : lookupSession ([] : SessionMap) sid = none := rfl
  constructor
  · by_cases hq : pyStrip q = ""
    · unfold process
      rw [if_pos hq, if_pos hq]
    · unfold process
      rw [if_neg hq, if_neg hq]
      dsimp only
      rw [research_steps_new_eq P (pyStrip q) sid fid _ h1 hsid,
          research_steps_new_eq P (pyStrip q) sid fid [] h2 hsid]
      cases call_cohere (P.chat (newLessonPrompt (pyStrip q)
        (search_fallback P (pyStrip q)))) <;> rfl
  · intro hq
    unfold process
    rw [if_neg hq]
    dsimp only
    rw [research_steps_new_eq P (pyStrip q) sid fid _ h1 hsid]
    cases call_cohere (P.chat (newLessonPrompt (pyStrip q)
      (search_fallback P (pyStrip q)))) <;> rfl

/-- Claim C7 witness: reset of a live session, then a process call reusing
its id, answers via the new-lesson prompt. -/
theorem claim7_reset_then_process_witness :
    (process sampleProviders "f" ⟨" q ", some "s1"⟩
        (resetEndpoint (some "s1") [("s1", ["Q: a", "A: b"])]).2).1 =
      Except.map (fun lesson => ProcessResponse.mk lesson "s1")
        (call_cohere (sampleProviders.chat (newLessonPrompt (pyStrip " q ")
          (search_fallback sampleProviders (pyStrip " q "))))) :=
  (claim7_reset_then_process sampleProviders "f" [("s1", ["Q: a", "A: b"])]
    " q " "s1" (by decide)).2 (by decide)

/-- Claim C8 counterexample: the app registers no GET /logs/raw route;
the registered routes are GET /, POST /process, POST /reset and
GET /logs only. -/
theorem claim8_logs_raw_counterexample :
    ¬ (("GET", "/logs/raw") ∈ appRoutes) := by decide

/-- Claim C8 (amended): the HTTP surface has no GET /logs/raw route; the
only log route is GET /logs, which serves the log file as plain text and
returns 404 when the file is absent. -/
theorem claim8_logs (content : String) :
    ("GET", "/logs") ∈ appRoutes ∧
    ¬ (("GET", "/logs/raw") ∈ appRoutes) ∧
    download_logs none = .error ⟨404, "No logs"⟩ ∧
    download_logs (some content) = .ok (content, "text/plain", "research.log") :=
  ⟨by decide, by decide, rfl, rfl⟩

/-- Claim C9: a successful POST /process appends exactly the two entries
"Q: " ++ question and "A: " ++ lesson, in that order, to the returned
session id entry (given a fresh uuid), touches no other key, and every
session map reachable from the empty one has histories of even length in
alternating Q/A shape. -/
theorem claim9_history_shape (P : Providers) (fid : String)
    (req : ResearchRequest) (st : SessionMap) (r : ProcessResponse)
    (st' : SessionMap) (h : process P fid req st = (.ok r, st'))
    (hfresh : lookupSession st fid = none) :
    lookupSession st' r.session_id =
      some ((lookupSession st r.session_id).getD [] ++
        ["Q: " ++ pyStrip req.text, "A: " ++ r.result]) ∧
    (∀ k, k ≠ r.session_id → lookupSession st' k = lookupSession st k) ∧
    (∀ ops : List Op, ∀ p ∈ (ops.foldl (applyOp P) ([] : SessionMap)),
       goodHistory p.2 ∧ p.2.length % 2 = 0) := by
  obtain ⟨hq, hr⟩ := process_ok_inv P fid req st r st' h
  have hshape := research_steps_ok_inv P _ _ fid st _ _ _ hr
  refine ⟨?_, ?_, ?_⟩
  · rcases hshape with ⟨hist, hlook, _, hset⟩ | ⟨hnone, _, hset⟩
    · rw [hset, lookup_setSession_self, hlook]
      rfl
    · have hn : lookupSession st r.session_id = none := by
        rcases hnone with hn | hfid
        · exact hn
        · rw [hfid]; exact hfresh
      rw [hset, lookup_setSession_self, hn]
      rfl
  · intro k hk
    have hk' : r.session_id ≠ k := fun hh => hk hh.symm
    rcases hshape with ⟨_, _, _, hset⟩ | ⟨_, _, hset⟩ <;>
      rw [hset, lookup_setSession_ne st r.session_id k _ hk']
  · intro ops p hp
    have hwp := WFmap_foldl P ops [] WFmap_nil p hp
    exact ⟨hwp, goodHistory_even _ hwp⟩

/-- Claim C9 witness: a first question stores exactly its Q/A pair. -/
theorem claim9_history_shape_witness :
    lookupSession [("f", ["Q: q", "A: lesson text"])] "f" =
      some ((lookupSession ([] : SessionMap) "f").getD [] ++
        ["Q: " ++ pyStrip " q ", "A: " ++ "lesson text"]) :=
  (claim9_history_shape sampleProviders "f" ⟨" q ", none⟩ []
    ⟨"lesson text", "f"⟩ [("f", ["Q: q", "A: lesson text"])]
    (by decide) (by decide)).1

/-- Claim C10: POST /process with a non-empty session id that is not a
current key keeps the supplied identifier: the new session is created
under exactly that id, which is echoed back unchanged. -/
theorem claim10_unknown_sid_kept (P : Providers) (fid : String)
    (st : SessionMap) (q sid L : String)
    (hsid : sid ≠ "") (hnot : lookupSession st sid = none)
    (hq : pyStrip q ≠ "")
    (hchat : call_cohere (P.chat (newLessonPrompt (pyStrip q)
      (search_fallback P (pyStrip q)))) = .ok L) :
    process P fid ⟨q, some sid⟩ st =
      (.ok ⟨L, sid⟩, setSession st sid ["Q: " ++ pyStrip q, "A: " ++ L]) := by
  unfold process
  rw [if_neg hq]
  dsimp only
  rw [research_steps_new_ok P (pyStrip q) sid fid st L hnot hsid hchat]

/-- Claim C10 witness: the supplied unknown id "s1" is kept and echoed. -/
theorem claim10_unknown_sid_kept_witness :
    process sampleProviders "f" ⟨" how to bake ", some "s1"⟩ [] =
      (.ok ⟨"lesson text", "s1"⟩,
       setSession [] "s1" ["Q: " ++ pyStrip " how to bake ", "A: " ++ "lesson text"]) :=
  claim10_unknown_sid_kept sampleProviders "f" [] " how to bake " "s1"
    "lesson text" (by decide) (by decide) (by decide) (by decide)
